import Mathlib

/-!
Shallow embedding of the pyTalentMonitor API client
(custom_components/talent_monitor/pyTalentMonitor/init module).

The client is a sequential chain of HTTP calls. We model the HTTP transport
as a list of scripted responses consumed in order, and record every request
the client issues in a trace. Python exceptions are modelled by an error
type; an operation returns its outcome together with the final object state,
the unconsumed responses and the trace of issued requests.

A crucial point of fidelity: in the source, refresh_token calls self.login()
WITHOUT awaiting it (line 63), and get_data calls self.login() (line 68) and
self.refresh_token() (line 72) without awaiting them. In Python, calling a
coroutine function without awaiting it builds a coroutine object and never
runs its body, so these three calls have no effect at all: no request is
issued and no state changes. The embedding models them as no-ops.
-/

/-- JSON values, as produced by parsing HTTP response bodies. Numbers are
modelled as integers: the client performs no arithmetic on them, it only
moves them between structures. -/
inductive Json where
  | null : Json
  | bool : Bool → Json
  | num : Int → Json
  | str : String → Json
  | arr : List Json → Json
  | obj : List (String × Json) → Json

/-- Python exceptions that the modelled code can raise, plus two extra
constructors: transportExhausted models awaiting a response when the
scripted transport has none left, and dataShapeError is the error class
named by the specification taxonomy (section 7); the code under src never
raises it, the constructor exists only so that statements about it can be
written down. -/
inductive PyError where
  | valueError (msg : String)
  | authenticationError (msg : String)
  | keyError (key : String)
  | indexError
  | typeError
  | nameError (name : String)
  | transportExhausted
  | dataShapeError
  deriving Repr, DecidableEq

/-- An HTTP request issued by the client: either a POST with a JSON body or
a GET carrying the value of its Authorization header. -/
inductive HttpReq where
  | post (url : String) (body : Json)
  | get (url : String) (authHeader : String)

/-- A scripted HTTP response: status code and parsed JSON body. -/
structure HttpResp where
  status : Nat
  body : Json

/-- First-match association lookup in a JSON object. -/
def jLookup : List (String × Json) → String → Option Json
  | [], _ => none
  | (k, v) :: rest, key => if k = key then some v else jLookup rest key

/-- Python truthiness of a parsed JSON value. -/
def jsonTruthy : Json → Bool
  | .null => false
  | .bool b => b
  | .num n => n != 0
  | .str s => s != ""
  | .arr l => !l.isEmpty
  | .obj l => !l.isEmpty

/-- Truthiness of an optional string, as Python sees a credential field:
None and the empty string are falsy. -/
def credTruthy : Option String → Bool
  | none => false
  | some s => s != ""

/-- Truthiness of the token field: None is falsy, otherwise the truthiness
of the stored JSON value. -/
def tokenTruthy : Option Json → Bool
  | none => false
  | some j => jsonTruthy j

/-- Whether the first list occurs as a prefix of the second. -/
def subListAt : List Char → List Char → Bool
  | [], _ => true
  | _ :: _, [] => false
  | a :: as, b :: bs => a = b && subListAt as bs

/-- Whether the first list occurs contiguously inside the second, used for
the Python membership test on strings. -/
def subListMem (needle : List Char) : List Char → Bool
  | [] => subListAt needle []
  | c :: rest => subListAt needle (c :: rest) || subListMem needle rest

/-- The Python membership operator, key in value: key lookup on objects,
element membership on arrays, substring test on strings, TypeError on the
remaining scalar values. -/
def jsonContains (j : Json) (k : String) : Except PyError Bool :=
  match j with
  | .obj l => .ok (jLookup l k).isSome
  | .arr l => .ok (l.any fun x => match x with | .str s => s == k | _ => false)
  | .str s => .ok (subListMem k.toList s.toList)
  | _ => .error .typeError

/-- Python subscript with a string key: lookup on objects (KeyError when
absent), TypeError on every other value. -/
def pySubscrStr (j : Json) (k : String) : Except PyError Json :=
  match j with
  | .obj l =>
    match jLookup l k with
    | some v => .ok v
    | none => .error (.keyError k)
  | _ => .error .typeError

/-- Python subscript with a numeric index: positional access on arrays
(IndexError when out of range), KeyError on objects (JSON object keys are
strings, so an integer key is never present), TypeError otherwise. -/
def pySubscrNat (j : Json) (i : Nat) : Except PyError Json :=
  match j with
  | .arr l =>
    match l.get? i with
    | some v => .ok v
    | none => .error .indexError
  | .obj _ => .error (.keyError (toString i))
  | _ => .error .typeError

/-- Python len of a parsed JSON value: TypeError on scalars. -/
def pyLen (j : Json) : Except PyError Nat :=
  match j with
  | .arr l => .ok l.length
  | .obj l => .ok l.length
  | .str s => .ok s.length
  | _ => .error .typeError

/-- Python str() of a parsed JSON value, as interpolated into f-strings.
The scalar cases match Python exactly; the client only ever interpolates
strings and None. Containers are rendered JSON-like, an approximation of
the Python repr that no modelled code path depends on. -/
def pyStr : Json → String
  | .null => "None"
  | .bool true => "True"
  | .bool false => "False"
  | .num n => toString n
  | .str s => s
  | .arr _ => "<list>"
  | .obj _ => "<dict>"

/-- The Authorization header value built by get_data from the token field:
an f-string, so a missing token renders as the string None. -/
def bearerHeader (t : Option Json) : String :=
  "Bearer " ++ (match t with | none => "None" | some j => pyStr j)

/-- Escaping of a string for JSON serialization (quote, backslash and the
common control characters; other characters pass through unchanged). -/
def jsonEscape (s : String) : String :=
  s.foldl (fun acc c =>
    if c = '\\' then acc ++ "\\\\"
    else if c = '"' then acc ++ "\\\""
    else if c = '\n' then acc ++ "\\n"
    else if c = '\t' then acc ++ "\\t"
    else if c = '\r' then acc ++ "\\r"
    else acc.push c) ""

/-- Indentation used by json.dumps with indent=4. -/
def indentStr (lvl : Nat) : String :=
  String.mk (List.replicate (4 * lvl) ' ')

mutual

/-- json.dumps of a value with indent=4, at a given nesting level. -/
def pyDumps : Json → Nat → String
  | .null, _ => "null"
  | .bool true, _ => "true"
  | .bool false, _ => "false"
  | .num n, _ => toString n
  | .str s, _ => "\"" ++ jsonEscape s ++ "\""
  | .arr [], _ => "[]"
  | .arr (x :: xs), lvl =>
    "[\n" ++ pyDumpsArrItems (x :: xs) (lvl + 1) ++ "\n" ++ indentStr lvl ++ "]"
  | .obj [], _ => "\x7b\x7d"
  | .obj (p :: ps), lvl =>
    "\x7b\n" ++ pyDumpsObjItems (p :: ps) (lvl + 1) ++ "\n" ++ indentStr lvl ++ "\x7d"

/-- Serialization of array items, one per line, comma separated. -/
def pyDumpsArrItems : List Json → Nat → String
  | [], _ => ""
  | [x], lvl => indentStr lvl ++ pyDumps x lvl
  | x :: y :: xs, lvl =>
    indentStr lvl ++ pyDumps x lvl ++ ",\n" ++ pyDumpsArrItems (y :: xs) lvl

/-- Serialization of object entries, one per line, comma separated. -/
def pyDumpsObjItems : List (String × Json) → Nat → String
  | [], _ => ""
  | [(k, v)], lvl => indentStr lvl ++ "\"" ++ jsonEscape k ++ "\": " ++ pyDumps v lvl
  | (k, v) :: q :: ps, lvl =>
    indentStr lvl ++ "\"" ++ jsonEscape k ++ "\": " ++ pyDumps v lvl ++ ",\n" ++
      pyDumpsObjItems (q :: ps) lvl

end

/-- BASE_URL constant from the source. -/
def BASE_URL : String := "https://www.talent-monitoring.com/prod-api"

/-- TIMEZONE constant from the source. -/
def TIMEZONE : String := "+02:00"

/-- The TalentSolarMonitor object state: the credential fields after the
environment fallback applied at construction, the output flag, and the
mutable token field. The session handle is external and is modelled by the
scripted response list threaded through each operation. -/
structure TSM where
  username : Option String
  password : Option String
  return_json : Bool
  token : Option Json

/-- Outcome of an operation: its result or raised error, the object state
after it, the responses the transport has not yet served, and the requests
issued, in order. -/
structure MOut (α : Type) where
  val : Except PyError α
  s : TSM
  w : List HttpResp
  tr : List HttpReq

/-- Serialization of an optional string credential into the login JSON
body: None serializes as null. -/
def optStrToJson : Option String → Json
  | none => Json.null
  | some s => Json.str s

/-- The login request as it appears on the wire. -/
def loginRequest (s : TSM) : HttpReq :=
  HttpReq.post (BASE_URL ++ "/login")
    (Json.obj [("username", optStrToJson s.username), ("password", optStrToJson s.password)])

/-- get_credentials (source lines 41 to 46): raises ValueError when either
credential field is falsy; no request is issued. -/
def get_credentials (s : TSM) : Except PyError Unit :=
  if !credTruthy s.username || !credTruthy s.password then
    .error (.valueError
      "Credentials not provided via command line arguments or environment variables.")
  else .ok ()

/-- login (source lines 48 to 58): posts the credentials to the login
endpoint; when the response body contains a token field the token is stored
and the call succeeds, otherwise AuthenticationError is raised and the
state is unchanged. -/
def login (s : TSM) (w : List HttpResp) : MOut Unit :=
  match w with
  | [] => ⟨.error .transportExhausted, s, [], [loginRequest s]⟩
  | r :: rest =>
    match jsonContains r.body "token" with
    | .error e => ⟨.error e, s, rest, [loginRequest s]⟩
    | .ok true =>
      match pySubscrStr r.body "token" with
      | .ok t => ⟨.ok (), { s with token := some t }, rest, [loginRequest s]⟩
      | .error e => ⟨.error e, s, rest, [loginRequest s]⟩
    | .ok false =>
      ⟨.error (.authenticationError "Authentication failed"), s, rest, [loginRequest s]⟩

/-- refresh_token (source lines 60 to 63): the body calls self.login()
without awaiting it, so no request is issued and no state changes. -/
def refresh_token (s : TSM) (w : List HttpResp) : MOut Unit :=
  ⟨.ok (), s, w, []⟩

/-- get_data (source lines 65 to 80). The two calls that would
authenticate, self.login() when no token is held and self.refresh_token()
on a 401, are not awaited in the source, so neither has any effect here.
On a 401 the Authorization header is recomputed from the unchanged token
field and the GET is retried once; the final response yields its parsed
body on status 200 and None on any other status. -/
def get_data (endpoint : String) (s : TSM) (w : List HttpResp) : MOut (Option Json) :=
  let url := BASE_URL ++ "/" ++ endpoint
  let h := bearerHeader s.token
  match w with
  | [] => ⟨.error .transportExhausted, s, [], [HttpReq.get url h]⟩
  | r1 :: w1 =>
    if r1.status == 401 then
      let h2 := bearerHeader s.token
      match w1 with
      | [] => ⟨.error .transportExhausted, s, [], [HttpReq.get url h, HttpReq.get url h2]⟩
      | r2 :: w2 =>
        if r2.status == 200 then
          ⟨.ok (some r2.body), s, w2, [HttpReq.get url h, HttpReq.get url h2]⟩
        else
          ⟨.ok none, s, w2, [HttpReq.get url h, HttpReq.get url h2]⟩
    else
      if r1.status == 200 then ⟨.ok (some r1.body), s, w1, [HttpReq.get url h]⟩
      else ⟨.ok none, s, w1, [HttpReq.get url h]⟩

/-- The station list condition and first row extraction (source lines 88
and 89): the test data and "rows" in data and len(data["rows"]) > 0,
followed by data["rows"][0]. Returns none when the condition is falsy, the
first row when it holds, and propagates any raised error. -/
def stationGate : Option Json → Except PyError (Option Json)
  | none => .ok none
  | some d =>
    if jsonTruthy d then
      match jsonContains d "rows" with
      | .error e => .error e
      | .ok false => .ok none
      | .ok true =>
        match pySubscrStr d "rows" with
        | .error e => .error e
        | .ok rows =>
          match pyLen rows with
          | .error e => .error e
          | .ok n =>
            if n > 0 then
              match pySubscrNat rows 0 with
              | .error e => .error e
              | .ok row => .ok (some row)
            else .ok none
    else .ok none

/-- Extraction of the three station fields from the first row (source
lines 90 to 92). -/
def extractStation (row : Json) : Except PyError (Json × Json × Json) :=
  match pySubscrStr row "status" with
  | .error e => .error e
  | .ok status =>
    match pySubscrStr row "stationName" with
    | .error e => .error e
    | .ok stationName =>
      match pySubscrStr row "powerStationGuid" with
      | .error e => .error e
      | .ok guid => .ok (status, stationName, guid)

/-- The station detail block (source lines 100 to 105): when the fetched
data is truthy, reads data["data"] and its four energy fields; when it is
falsy the four locals stay unset, modelled as none. -/
def powerGate : Option Json → Except PyError (Option (Json × Json × Json × Json))
  | none => .ok none
  | some d =>
    if jsonTruthy d then
      match pySubscrStr d "data" with
      | .error e => .error e
      | .ok pd =>
        match pySubscrStr pd "totalActivePower" with
        | .error e => .error e
        | .ok tap =>
          match pySubscrStr pd "dayEnergy" with
          | .error e => .error e
          | .ok de =>
            match pySubscrStr pd "monthEnergy" with
            | .error e => .error e
            | .ok me =>
              match pySubscrStr pd "yearEnergy" with
              | .error e => .error e
              | .ok ye => .ok (some (tap, de, me, ye))
    else .ok none

/-- The inverter list block (source lines 108 and 109): when the fetched
data is truthy, reads data["rows"][0]["deviceGuid"]; otherwise the local
stays unset. -/
def deviceGate : Option Json → Except PyError (Option Json)
  | none => .ok none
  | some d =>
    if jsonTruthy d then
      match pySubscrStr d "rows" with
      | .error e => .error e
      | .ok rows =>
        match pySubscrNat rows 0 with
        | .error e => .error e
        | .ok row =>
          match pySubscrStr row "deviceGuid" with
          | .error e => .error e
          | .ok g => .ok (some g)
    else .ok none

/-- The inverter detail block (source lines 116 to 123): when the fetched
data is truthy, reads data["data"]["pv"] and the six fields of its entries
at positions 0 and 1; otherwise the six locals stay unset. -/
def pvGate : Option Json → Except PyError (Option (Json × Json × Json × Json × Json × Json))
  | none => .ok none
  | some d =>
    if jsonTruthy d then
      match pySubscrStr d "data" with
      | .error e => .error e
      | .ok pd =>
        match pySubscrStr pd "pv" with
        | .error e => .error e
        | .ok pv =>
          match pySubscrNat pv 0 with
          | .error e => .error e
          | .ok a0 =>
            match pySubscrStr a0 "voltage" with
            | .error e => .error e
            | .ok v1 =>
              match pySubscrStr a0 "current" with
              | .error e => .error e
              | .ok c1 =>
                match pySubscrStr a0 "power" with
                | .error e => .error e
                | .ok q1 =>
                  match pySubscrNat pv 1 with
                  | .error e => .error e
                  | .ok a1 =>
                    match pySubscrStr a1 "voltage" with
                    | .error e => .error e
                    | .ok v2 =>
                      match pySubscrStr a1 "current" with
                      | .error e => .error e
                      | .ok c2 =>
                        match pySubscrStr a1 "power" with
                        | .error e => .error e
                        | .ok q2 => .ok (some (v1, c1, q1, v2, c2, q2))
    else .ok none

/-- The report assembly (source lines 125 to 138): a Python dict literal
whose values are the locals bound by the earlier blocks, evaluated left to
right; referencing a local that a skipped block never bound raises
UnboundLocalError, modelled as nameError carrying the variable name (the
first unbound local in dict order). -/
def assembleResult (status stationName : Json)
    (power : Option (Json × Json × Json × Json))
    (pvs : Option (Json × Json × Json × Json × Json × Json)) :
    Except PyError Json :=
  match power with
  | none => .error (.nameError "totalActivePower")
  | some (tap, de, me, ye) =>
    match pvs with
    | none => .error (.nameError "pv1Voltage")
    | some (v1, c1, q1, v2, c2, q2) =>
      .ok (Json.obj
        [("Status", status), ("StationName", stationName),
         ("TotalActivePower(W)", tap), ("DailyEnergy(Wh)", de),
         ("MonthlyEnergy(Wh)", me), ("YearlyEnergy(Wh)", ye),
         ("Panel1Voltage(V)", v1), ("Panel1Current(A)", c1),
         ("Panel1Power(W)", q1), ("Panel2Voltage(V)", v2),
         ("Panel2Current(A)", c2), ("Panel2Power(W)", q2)])

/-- Source lines 116 to 144 after the inverter info fetch: the pv block,
the report assembly and the output step. These only compute the value the
function returns; they issue no request and touch no state. -/
def reportStep (status stationName : Json)
    (power : Option (Json × Json × Json × Json)) (return_json : Bool)
    (dataOpt : Option Json) : Except PyError (Option String) :=
  match pvGate dataOpt with
  | .error e => .error e
  | .ok pvs =>
    match assembleResult status stationName power pvs with
    | .error e => .error e
    | .ok result => if return_json then .ok (some (pyDumps result 0)) else .ok none

/-- Source lines 111 to 144 from the inverter info fetch on: the URL
f-string references the deviceGuid local, raising UnboundLocalError when
the inverter list block left it unset; then the GET and the report step. -/
def fetch_inverter_info (status stationName : Json)
    (power : Option (Json × Json × Json × Json)) (devOpt : Option Json)
    (s : TSM) (w : List HttpResp) : MOut (Option String) :=
  match devOpt with
  | none => ⟨.error (.nameError "deviceGuid"), s, w, []⟩
  | some deviceGuid =>
    match get_data ("tools/device/selectDeviceInverterInfo?deviceGuid=" ++ pyStr deviceGuid) s w with
    | ⟨.error e, s1, w1, tr1⟩ => ⟨.error e, s1, w1, tr1⟩
    | ⟨.ok dataOpt, s1, w1, tr1⟩ =>
      ⟨reportStep status stationName power s1.return_json dataOpt, s1, w1, tr1⟩

/-- Source lines 107 to 109 and the rest of the function: inverter list
fetch and its block, then the inverter info stage. -/
def fetch_inverter (status stationName : Json)
    (power : Option (Json × Json × Json × Json))
    (s : TSM) (w : List HttpResp) : MOut (Option String) :=
  match get_data "tools/device/selectDeviceInverter" s w with
  | ⟨.error e, s1, w1, tr1⟩ => ⟨.error e, s1, w1, tr1⟩
  | ⟨.ok dataOpt, s1, w1, tr1⟩ =>
    match deviceGate dataOpt with
    | .error e => ⟨.error e, s1, w1, tr1⟩
    | .ok devOpt =>
      match fetch_inverter_info status stationName power devOpt s1 w1 with
      | ⟨v2, s2, w2, tr2⟩ => ⟨v2, s2, w2, tr1 ++ tr2⟩

/-- Source lines 95 to 105 and the rest of the function: station detail
fetch and its block, then the inverter stages. -/
def fetch_detail (status stationName powerStationGuid : Json)
    (s : TSM) (w : List HttpResp) : MOut (Option String) :=
  match get_data
    ("system/station/getPowerStationByGuid?powerStationGuid=" ++ pyStr powerStationGuid
      ++ "&timezone=" ++ TIMEZONE) s w with
  | ⟨.error e, s1, w1, tr1⟩ => ⟨.error e, s1, w1, tr1⟩
  | ⟨.ok dataOpt, s1, w1, tr1⟩ =>
    match powerGate dataOpt with
    | .error e => ⟨.error e, s1, w1, tr1⟩
    | .ok power =>
      match fetch_inverter status stationName power s1 w1 with
      | ⟨v2, s2, w2, tr2⟩ => ⟨v2, s2, w2, tr1 ++ tr2⟩

/-- Source lines 87 to 144: station list fetch, the guarding condition and
first row extraction, then the remaining stages; when the condition is
falsy the function falls through and returns None. -/
def fetch_stations (s : TSM) (w : List HttpResp) : MOut (Option String) :=
  match get_data "system/station/list" s w with
  | ⟨.error e, s1, w1, tr1⟩ => ⟨.error e, s1, w1, tr1⟩
  | ⟨.ok dataOpt, s1, w1, tr1⟩ =>
    match stationGate dataOpt with
    | .error e => ⟨.error e, s1, w1, tr1⟩
    | .ok none => ⟨.ok none, s1, w1, tr1⟩
    | .ok (some row) =>
      match extractStation row with
      | .error e => ⟨.error e, s1, w1, tr1⟩
      | .ok (status, stationName, guid) =>
        match fetch_detail status stationName guid s1 w1 with
        | ⟨v2, s2, w2, tr2⟩ => ⟨v2, s2, w2, tr1 ++ tr2⟩

/-- fetch_solar_data (source lines 82 to 144): credential check, an
awaited login, then the four data stages. -/
def fetch_solar_data (s : TSM) (w : List HttpResp) : MOut (Option String) :=
  match get_credentials s with
  | .error e => ⟨.error e, s, w, []⟩
  | .ok _ =>
    match login s w with
    | ⟨.error e, s1, w1, tr1⟩ => ⟨.error e, s1, w1, tr1⟩
    | ⟨.ok _, s1, w1, tr1⟩ =>
      match fetch_stations s1 w1 with
      | ⟨v2, s2, w2, tr2⟩ => ⟨v2, s2, w2, tr1 ++ tr2⟩

/-! ### Helper lemmas -/

/-- get_data never modifies the object state: the token is only read, and
the calls that would write it are not awaited in the source. -/
theorem get_data_state (ep : String) (s : TSM) (w : List HttpResp) :
    (get_data ep s w).s = s := by
  unfold get_data
  cases w with
  | nil => rfl
  | cons r1 w1 =>
    cases h1 : r1.status == 401
    · cases h2 : r1.status == 200 <;> simp [h1, h2]
    · cases w1 with
      | nil => simp [h1]
      | cons r2 w2 => cases h2 : r2.status == 200 <;> simp [h1, h2]

/-- login leaves the username field unchanged. -/
theorem login_username (s : TSM) (w : List HttpResp) :
    (login s w).s.username = s.username := by
  unfold login
  cases w with
  | nil => rfl
  | cons r rest =>
    cases jc : jsonContains r.body "token" with
    | error e => simp [jc]
    | ok b =>
      cases b
      · simp [jc]
      · cases ps : pySubscrStr r.body "token" with
        | error e => simp [jc, ps]
        | ok t => simp [jc, ps]

/-- login leaves the password field unchanged. -/
theorem login_password (s : TSM) (w : List HttpResp) :
    (login s w).s.password = s.password := by
  unfold login
  cases w with
  | nil => rfl
  | cons r rest =>
    cases jc : jsonContains r.body "token" with
    | error e => simp [jc]
    | ok b =>
      cases b
      · simp [jc]
      · cases ps : pySubscrStr r.body "token" with
        | error e => simp [jc, ps]
        | ok t => simp [jc, ps]

/-- login always issues exactly the login POST. -/
theorem login_tr (s : TSM) (w : List HttpResp) :
    (login s w).tr = [loginRequest s] := by
  unfold login
  cases w with
  | nil => rfl
  | cons r rest =>
    cases jc : jsonContains r.body "token" with
    | error e => simp [jc]
    | ok b =>
      cases b
      · simp [jc]
      · cases ps : pySubscrStr r.body "token" with
        | error e => simp [jc, ps]
        | ok t => simp [jc, ps]

/-- The inverter info stage never modifies the object state. -/
theorem fetch_inverter_info_state (a b : Json)
    (power : Option (Json × Json × Json × Json)) (devOpt : Option Json)
    (s : TSM) (w : List HttpResp) :
    (fetch_inverter_info a b power devOpt s w).s = s := by
  cases devOpt with
  | none => rfl
  | some g =>
    rcases hG : get_data ("tools/device/selectDeviceInverterInfo?deviceGuid=" ++ pyStr g) s w
      with ⟨v1, s1, w1, tr1⟩
    have hs1 : s1 = s := by
      have h := get_data_state ("tools/device/selectDeviceInverterInfo?deviceGuid=" ++ pyStr g) s w
      rw [hG] at h; exact h
    simp only [fetch_inverter_info, hG]
    cases v1 <;> simpa using hs1

/-- The inverter list stage never modifies the object state. -/
theorem fetch_inverter_state (a b : Json)
    (power : Option (Json × Json × Json × Json)) (s : TSM) (w : List HttpResp) :
    (fetch_inverter a b power s w).s = s := by
  rcases hG : get_data "tools/device/selectDeviceInverter" s w with ⟨v1, s1, w1, tr1⟩
  have hs1 : s1 = s := by
    have h := get_data_state "tools/device/selectDeviceInverter" s w
    rw [hG] at h; exact h
  simp only [fetch_inverter, hG]
  cases v1 with
  | error e => simpa using hs1
  | ok dataOpt =>
    rcases hd : deviceGate dataOpt with e | devOpt
    · simpa [hd] using hs1
    · rcases hR : fetch_inverter_info a b power devOpt s1 w1 with ⟨v2, s2, w2, tr2⟩
      have hs2 : s2 = s1 := by
        have h := fetch_inverter_info_state a b power devOpt s1 w1
        rw [hR] at h; exact h
      simpa [hd, hR] using hs2.trans hs1

/-- The station detail stage never modifies the object state. -/
theorem fetch_detail_state (a b g : Json) (s : TSM) (w : List HttpResp) :
    (fetch_detail a b g s w).s = s := by
  rcases hG : get_data
      ("system/station/getPowerStationByGuid?powerStationGuid=" ++ pyStr g
        ++ "&timezone=" ++ TIMEZONE) s w with ⟨v1, s1, w1, tr1⟩
  have hs1 : s1 = s := by
    have h := get_data_state
      ("system/station/getPowerStationByGuid?powerStationGuid=" ++ pyStr g
        ++ "&timezone=" ++ TIMEZONE) s w
    rw [hG] at h; exact h
  simp only [fetch_detail, hG]
  cases v1 with
  | error e => simpa using hs1
  | ok dataOpt =>
    rcases hp : powerGate dataOpt with e | power
    · simpa [hp] using hs1
    · rcases hR : fetch_inverter a b power s1 w1 with ⟨v2, s2, w2, tr2⟩
      have hs2 : s2 = s1 := by
        have h := fetch_inverter_state a b power s1 w1
        rw [hR] at h; exact h
      simpa [hp, hR] using hs2.trans hs1

/-- The station list stage never modifies the object state. -/
theorem fetch_stations_state (s : TSM) (w : List HttpResp) :
    (fetch_stations s w).s = s := by
  rcases hG : get_data "system/station/list" s w with ⟨v1, s1, w1, tr1⟩
  have hs1 : s1 = s := by
    have h := get_data_state "system/station/list" s w
    rw [hG] at h; exact h
  simp only [fetch_stations, hG]
  cases v1 with
  | error e => simpa using hs1
  | ok dataOpt =>
    rcases hg : stationGate dataOpt with e | rowOpt
    · simpa [hg] using hs1
    · cases rowOpt with
      | none => simpa [hg] using hs1
      | some row =>
        rcases he : extractStation row with e | triple
        · simpa [hg, he] using hs1
        · rcases triple with ⟨a, b, g⟩
          rcases hR : fetch_detail a b g s1 w1 with ⟨v2, s2, w2, tr2⟩
          have hs2 : s2 = s1 := by
            have h := fetch_detail_state a b g s1 w1
            rw [hR] at h; exact h
          simpa [hg, he, hR] using hs2.trans hs1

/-! ### Concrete scripted responses shared by the closed theorems -/

/-- A successful login response carrying a token. -/
def mockLogin : HttpResp := ⟨200, Json.obj [("token", Json.str "tok1")]⟩

/-- A station list response with one row. -/
def mockStations : HttpResp := ⟨200, Json.obj [("rows", Json.arr [Json.obj
  [("status", Json.str "1"), ("stationName", Json.str "Home"),
   ("powerStationGuid", Json.str "guid-1")]])]⟩

/-- A station detail response with the four energy fields. -/
def mockDetail : HttpResp := ⟨200, Json.obj [("data", Json.obj
  [("totalActivePower", Json.num 123), ("dayEnergy", Json.num 45),
   ("monthEnergy", Json.num 678), ("yearEnergy", Json.num 9012)])]⟩

/-- An inverter list response with one row. -/
def mockInverters : HttpResp := ⟨200, Json.obj [("rows", Json.arr [Json.obj
  [("deviceGuid", Json.str "dev-1")]])]⟩

/-- An inverter detail response whose pv array is the given value. -/
def mockInverterInfo (pv : Json) : HttpResp :=
  ⟨200, Json.obj [("data", Json.obj [("pv", pv)])]⟩

/-- A well formed panel reading. -/
def mockPanel (v c q : Int) : Json :=
  Json.obj [("voltage", Json.num v), ("current", Json.num c), ("power", Json.num q)]

/-- A client holding credentials, JSON output mode and no token. -/
def jsonClient : TSM := ⟨some "user", some "pass", true, none⟩

/-- The report entries assembled from the concrete mocks above, in
construction order. -/
def sampleReportPairs : List (String × Json) :=
  [("Status", Json.str "1"), ("StationName", Json.str "Home"),
   ("TotalActivePower(W)", Json.num 123), ("DailyEnergy(Wh)", Json.num 45),
   ("MonthlyEnergy(Wh)", Json.num 678), ("YearlyEnergy(Wh)", Json.num 9012),
   ("Panel1Voltage(V)", Json.num 30), ("Panel1Current(A)", Json.num 2),
   ("Panel1Power(W)", Json.num 60), ("Panel2Voltage(V)", Json.num 31),
   ("Panel2Current(A)", Json.num 3), ("Panel2Power(W)", Json.num 93)]

/-! ### Claim theorems -/

/-- C1 counterexample: an authenticated GET through get_data that receives
a 401 triggers no re-authentication at all: the concrete run below issues
no POST, the retried GET carries the identical Authorization header, the
token field is unchanged, and a second 401 makes get_data return None, an
outcome distinct from raising AuthenticationError. -/
theorem C1_counterexample :
    get_data "system/station/list" ⟨some "u", some "p", false, some (Json.str "tok")⟩
        [⟨401, Json.null⟩, ⟨401, Json.null⟩] =
      ⟨.ok none, ⟨some "u", some "p", false, some (Json.str "tok")⟩, [],
       [HttpReq.get (BASE_URL ++ "/system/station/list") "Bearer tok",
        HttpReq.get (BASE_URL ++ "/system/station/list") "Bearer tok"]⟩ ∧
    (Except.ok (none : Option Json) ≠
      (Except.error (PyError.authenticationError "Authentication failed") :
        Except PyError (Option Json))) := by
  exact ⟨rfl, by simp⟩

/-- C1 amended: on a 401 response to an authenticated GET, get_data calls
refresh_token without awaiting it, so no login request is issued and the
token field stays unchanged; the Authorization header is recomputed from
that same token and the GET is retried exactly once; when the retry also
returns 401, get_data returns None (a soft failure) rather than raising
AuthenticationError, and no further retry occurs. -/
theorem C1_amended_single_retry_no_reauth (ep : String) (s : TSM) (b1 b2 : Json)
    (w : List HttpResp) :
    get_data ep s (⟨401, b1⟩ :: ⟨401, b2⟩ :: w) =
      ⟨.ok none, s, w,
       [HttpReq.get (BASE_URL ++ "/" ++ ep) (bearerHeader s.token),
        HttpReq.get (BASE_URL ++ "/" ++ ep) (bearerHeader s.token)]⟩ := rfl

/-- C4 counterexample: an instance that already holds a valid token still
issues a POST to the login endpoint when fetch_solar_data is invoked, even
though every response in the run is a 200 and no 401 is observed. -/
theorem C4_counterexample :
    fetch_solar_data ⟨some "u", some "p", false, some (Json.str "tok")⟩
        [⟨200, Json.obj [("token", Json.str "tok2")]⟩,
         ⟨200, Json.obj [("rows", Json.arr [])]⟩] =
      ⟨.ok none, ⟨some "u", some "p", false, some (Json.str "tok2")⟩, [],
       [HttpReq.post (BASE_URL ++ "/login")
          (Json.obj [("username", Json.str "u"), ("password", Json.str "p")]),
        HttpReq.get (BASE_URL ++ "/system/station/list") "Bearer tok2"]⟩ := rfl

/-- C4 amended: every invocation of fetch_solar_data whose credential check
passes issues the login POST as its very first request, regardless of the
token already held; the held token never suppresses the POST. -/
theorem C4_amended_always_posts_login (s : TSM) (w : List HttpResp)
    (hu : credTruthy s.username = true) (hp : credTruthy s.password = true) :
    (fetch_solar_data s w).tr.head? = some (loginRequest s) := by
  have hc : get_credentials s = .ok () := by
    unfold get_credentials
    simp [hu, hp]
  rcases hL : login s w with ⟨v1, s1, w1, tr1⟩
  have htr : tr1 = [loginRequest s] := by
    have h := login_tr s w; rw [hL] at h; exact h
  simp only [fetch_solar_data, hc, hL]
  cases v1 with
  | error e => simp [htr]
  | ok u =>
    rcases hR : fetch_stations s1 w1 with ⟨v2, s2, w2, tr2⟩
    simp [hR, htr]

/-- Witness for the amended C4 theorem at a concrete client and script. -/
theorem C4_witness :
    credTruthy (some "u") = true ∧ credTruthy (some "p") = true ∧
    (fetch_solar_data ⟨some "u", some "p", false, none⟩ []).tr.head? =
      some (loginRequest ⟨some "u", some "p", false, none⟩) :=
  ⟨rfl, rfl, C4_amended_always_posts_login ⟨some "u", some "p", false, none⟩ [] rfl rfl⟩

/-- C8: login posts the credentials as JSON to the login endpoint; when the
response body contains a token field, the value is stored as the held token
and the call succeeds, and otherwise AuthenticationError is raised with the
whole state, in particular the token field, unchanged. -/
theorem C8_login_token_handling (s : TSM) (st : Nat) (l : List (String × Json))
    (w : List HttpResp) :
    login s (⟨st, Json.obj l⟩ :: w) =
      match jLookup l "token" with
      | some t => ⟨.ok (), { s with token := some t }, w, [loginRequest s]⟩
      | none => ⟨.error (.authenticationError "Authentication failed"), s, w,
          [loginRequest s]⟩ := by
  cases ht : jLookup l "token" with
  | none => simp [login, jsonContains, ht]
  | some t => simp [login, jsonContains, pySubscrStr, ht]

/-- C6: with a missing or empty username or password (the state fields
already reflect the environment fallback applied at construction),
fetch_solar_data raises the credentials ValueError (the ConfigurationError
of the specification taxonomy) whose message starts with the required
prefix, and performs no HTTP call at all: the state and the scripted
transport are untouched and the request trace is empty. -/
theorem C6_no_io_without_credentials (s : TSM) (w : List HttpResp)
    (h : credTruthy s.username = false ∨ credTruthy s.password = false) :
    fetch_solar_data s w =
      ⟨.error (.valueError
          "Credentials not provided via command line arguments or environment variables."),
        s, w, []⟩ ∧
    subListAt "Credentials not provided".toList
      "Credentials not provided via command line arguments or environment variables.".toList
      = true := by
  constructor
  · have hc : get_credentials s = .error (.valueError
        "Credentials not provided via command line arguments or environment variables.") := by
      unfold get_credentials
      rcases h with h | h <;> simp [h]
    simp [fetch_solar_data, hc]
  · rfl

/-- Witness for the C6 theorem: a client whose username is None. -/
theorem C6_witness :
    (credTruthy (none : Option String) = false ∨ credTruthy (some "p") = false) ∧
    (fetch_solar_data ⟨none, some "p", false, none⟩ [] =
      ⟨.error (.valueError
          "Credentials not provided via command line arguments or environment variables."),
        ⟨none, some "p", false, none⟩, [], []⟩ ∧
     subListAt "Credentials not provided".toList
       "Credentials not provided via command line arguments or environment variables.".toList
       = true) :=
  ⟨Or.inl rfl, C6_no_io_without_credentials ⟨none, some "p", false, none⟩ [] (Or.inl rfl)⟩

/-- fetch_solar_data leaves both credential fields unchanged on every
path. -/
theorem fetch_solar_data_creds (s : TSM) (w : List HttpResp) :
    (fetch_solar_data s w).s.username = s.username ∧
    (fetch_solar_data s w).s.password = s.password := by
  cases hc : get_credentials s with
  | error e => simp [fetch_solar_data, hc]
  | ok u =>
    rcases hL : login s w with ⟨v1, s1, w1, tr1⟩
    have hu : s1.username = s.username := by
      have h := login_username s w; rw [hL] at h; exact h
    have hp : s1.password = s.password := by
      have h := login_password s w; rw [hL] at h; exact h
    simp only [fetch_solar_data, hc, hL]
    cases v1 with
    | error e => exact ⟨hu, hp⟩
    | ok uu =>
      rcases hR : fetch_stations s1 w1 with ⟨v2, s2, w2, tr2⟩
      have hs2 : s2 = s1 := by
        have h := fetch_stations_state s1 w1; rw [hR] at h; exact h
      simp [hR, hs2, hu, hp]

/-- C9: the username and password fields equal their construction values
after every operation, for every state, endpoint and transport script, on
success and failure paths alike. get_credentials is read-only by type: it
returns no state at all, so it cannot modify the fields. -/
theorem C9_credentials_immutable (s : TSM) (w : List HttpResp) (ep : String) :
    ((login s w).s.username = s.username ∧ (login s w).s.password = s.password) ∧
    ((refresh_token s w).s.username = s.username ∧
      (refresh_token s w).s.password = s.password) ∧
    ((get_data ep s w).s.username = s.username ∧
      (get_data ep s w).s.password = s.password) ∧
    ((fetch_solar_data s w).s.username = s.username ∧
      (fetch_solar_data s w).s.password = s.password) := by
  refine ⟨⟨login_username s w, login_password s w⟩, ⟨rfl, rfl⟩, ⟨?_, ?_⟩,
    fetch_solar_data_creds s w⟩
  · rw [get_data_state]
  · rw [get_data_state]

/-- C10: fetch_solar_data is deterministic in its inputs: two runs from
states agreeing on username, password, output flag and token, over equal
scripted response sequences, produce the same outcome, the same final
token and the same request trace. -/
theorem C10_fetch_deterministic (s1 s2 : TSM) (w1 w2 : List HttpResp)
    (hu : s1.username = s2.username) (hp : s1.password = s2.password)
    (hj : s1.return_json = s2.return_json) (ht : s1.token = s2.token)
    (hw : w1 = w2) :
    (fetch_solar_data s1 w1).val = (fetch_solar_data s2 w2).val ∧
    (fetch_solar_data s1 w1).s.token = (fetch_solar_data s2 w2).s.token ∧
    (fetch_solar_data s1 w1).tr = (fetch_solar_data s2 w2).tr := by
  have hs : s1 = s2 := by
    cases s1; cases s2; simp_all
  subst hs
  subst hw
  exact ⟨rfl, rfl, rfl⟩

/-- Witness for the C10 theorem at a concrete client and script. -/
theorem C10_witness :
    (fetch_solar_data jsonClient [mockLogin]).val =
      (fetch_solar_data jsonClient [mockLogin]).val ∧
    (fetch_solar_data jsonClient [mockLogin]).s.token =
      (fetch_solar_data jsonClient [mockLogin]).s.token ∧
    (fetch_solar_data jsonClient [mockLogin]).tr =
      (fetch_solar_data jsonClient [mockLogin]).tr :=
  C10_fetch_deterministic jsonClient jsonClient [mockLogin] [mockLogin] rfl rfl rfl rfl rfl

/-- The station list condition yields no row when the rows field is an
empty array or absent. -/
theorem stationGate_empty_rows (l : List (String × Json))
    (h : jLookup l "rows" = some (Json.arr []) ∨ jLookup l "rows" = none) :
    stationGate (some (Json.obj l)) = .ok none := by
  rcases h with h | h
  · cases l with
    | nil => simp [jLookup] at h
    | cons q ps =>
      simp [stationGate, jsonTruthy, jsonContains, h, pySubscrStr, pyLen]
  · cases l with
    | nil => rfl
    | cons q ps =>
      simp [stationGate, jsonTruthy, jsonContains, h, pySubscrStr]

/-- C7: for every station list response whose rows field is an empty array
or absent, fetch_solar_data completes with None: no error is raised, no
report is produced, exactly the login POST and the station list GET are
issued, and no further scripted response is consumed. -/
theorem C7_empty_station_list_no_report (tk : Json) (l : List (String × Json))
    (tk0 : Option Json) (wrest : List HttpResp)
    (h : jLookup l "rows" = some (Json.arr []) ∨ jLookup l "rows" = none) :
    fetch_solar_data ⟨some "user", some "pass", true, tk0⟩
        (⟨200, Json.obj [("token", tk)]⟩ :: ⟨200, Json.obj l⟩ :: wrest) =
      ⟨.ok none, ⟨some "user", some "pass", true, some tk⟩, wrest,
       [loginRequest ⟨some "user", some "pass", true, tk0⟩,
        HttpReq.get (BASE_URL ++ "/system/station/list") (bearerHeader (some tk))]⟩ := by
  have hsg : stationGate (some (Json.obj l)) = .ok none := stationGate_empty_rows l h
  simp [fetch_solar_data, get_credentials, credTruthy, login, jsonContains, jLookup,
    pySubscrStr, fetch_stations, get_data, hsg]
  rfl

/-- Witness for the C7 theorem: a station list whose rows array is
empty. -/
theorem C7_witness :
    (jLookup [("rows", Json.arr [])] "rows" = some (Json.arr []) ∨
      jLookup [("rows", Json.arr [])] "rows" = none) ∧
    fetch_solar_data ⟨some "user", some "pass", true, none⟩
        [⟨200, Json.obj [("token", Json.str "tok")]⟩,
         ⟨200, Json.obj [("rows", Json.arr [])]⟩] =
      ⟨.ok none, ⟨some "user", some "pass", true, some (Json.str "tok")⟩, [],
       [loginRequest ⟨some "user", some "pass", true, none⟩,
        HttpReq.get (BASE_URL ++ "/system/station/list")
          (bearerHeader (some (Json.str "tok")))]⟩ :=
  ⟨Or.inl rfl,
    C7_empty_station_list_no_report (Json.str "tok") [("rows", Json.arr [])] none []
      (Or.inl rfl)⟩

/-- C2 counterexample: the report object that fetch_solar_data serializes
in JSON mode has twelve distinct keys, not eleven as the claim states; the
concrete mocked run below returns the serialization of the twelve entry
object sampleReportPairs. -/
theorem C2_counterexample :
    (fetch_solar_data jsonClient
        [mockLogin, mockStations, mockDetail, mockInverters,
         mockInverterInfo (Json.arr [mockPanel 30 2 60, mockPanel 31 3 93])]).val =
      .ok (some (pyDumps (Json.obj sampleReportPairs) 0)) ∧
    (sampleReportPairs.map Prod.fst).Nodup ∧
    sampleReportPairs.length = 12 ∧ (12 : Nat) ≠ 11 :=
  ⟨rfl, by decide, rfl, by decide⟩

/-- C2 amended: for any successful mocked endpoint responses of the
required shapes (a station list whose first row carries status,
stationName and powerStationGuid; a station detail with the four energy
fields under data; an inverter list whose first row carries deviceGuid; an
inverter detail with exactly two pv entries, each carrying voltage,
current and power), fetch_solar_data in JSON mode returns the indent-4
serialization of the report object whose twelve keys appear in
construction order with values exactly the mocked inputs. -/
theorem C2_amended_roundtrip (tk stv snv tap de me ye v1 c1 q1 v2 c2 q2 : Json)
    (g dg : String) (rest rest2 : List Json) (tk0 : Option Json) (wrest : List HttpResp) :
    (fetch_solar_data ⟨some "user", some "pass", true, tk0⟩
        (⟨200, Json.obj [("token", tk)]⟩ ::
         ⟨200, Json.obj [("rows", Json.arr (Json.obj
            [("status", stv), ("stationName", snv),
             ("powerStationGuid", Json.str g)] :: rest))]⟩ ::
         ⟨200, Json.obj [("data", Json.obj
            [("totalActivePower", tap), ("dayEnergy", de), ("monthEnergy", me),
             ("yearEnergy", ye)])]⟩ ::
         ⟨200, Json.obj [("rows", Json.arr (Json.obj
            [("deviceGuid", Json.str dg)] :: rest2))]⟩ ::
         ⟨200, Json.obj [("data", Json.obj [("pv", Json.arr
            [Json.obj [("voltage", v1), ("current", c1), ("power", q1)],
             Json.obj [("voltage", v2), ("current", c2), ("power", q2)]])])]⟩ ::
         wrest)).val =
      .ok (some (pyDumps (Json.obj
        [("Status", stv), ("StationName", snv), ("TotalActivePower(W)", tap),
         ("DailyEnergy(Wh)", de), ("MonthlyEnergy(Wh)", me), ("YearlyEnergy(Wh)", ye),
         ("Panel1Voltage(V)", v1), ("Panel1Current(A)", c1), ("Panel1Power(W)", q1),
         ("Panel2Voltage(V)", v2), ("Panel2Current(A)", c2),
         ("Panel2Power(W)", q2)]) 0)) := by
  simp [fetch_solar_data, get_credentials, credTruthy, login, jsonContains, jLookup,
    pySubscrStr, fetch_stations, get_data, stationGate, jsonTruthy, pyLen, pySubscrNat,
    extractStation, fetch_detail, powerGate, fetch_inverter, deviceGate,
    fetch_inverter_info, pvGate, assembleResult, reportStep, pyStr]

/-- C3 at the failing input: when the station detail GET returns 500, the
soft failure leaves the four energy locals unset yet execution continues
through the inverter stages (the login POST and all four GETs appear in
the trace), and the assembly step then raises UnboundLocalError for
totalActivePower, which is not the DataShapeError the specification
requires. -/
theorem C3_code_behavior :
    fetch_solar_data jsonClient
        [mockLogin, mockStations, ⟨500, Json.null⟩, mockInverters,
         mockInverterInfo (Json.arr [mockPanel 30 2 60, mockPanel 31 3 93])] =
      ⟨.error (.nameError "totalActivePower"),
       ⟨some "user", some "pass", true, some (Json.str "tok1")⟩, [],
       [loginRequest jsonClient,
        HttpReq.get (BASE_URL ++ "/system/station/list") "Bearer tok1",
        HttpReq.get (BASE_URL ++
          "/system/station/getPowerStationByGuid?powerStationGuid=guid-1&timezone=+02:00")
          "Bearer tok1",
        HttpReq.get (BASE_URL ++ "/tools/device/selectDeviceInverter") "Bearer tok1",
        HttpReq.get (BASE_URL ++ "/tools/device/selectDeviceInverterInfo?deviceGuid=dev-1")
          "Bearer tok1"]⟩ ∧
    PyError.nameError "totalActivePower" ≠ PyError.dataShapeError :=
  ⟨rfl, by decide⟩

/-- C5 counterexample: with a pv array of one entry, the concrete mocked
run raises IndexError from the positional access at index 1, which is not
the DataShapeError the claim names. -/
theorem C5_counterexample :
    (fetch_solar_data jsonClient
        [mockLogin, mockStations, mockDetail, mockInverters,
         mockInverterInfo (Json.arr [mockPanel 30 2 60])]).val =
      .error .indexError ∧
    PyError.indexError ≠ PyError.dataShapeError :=
  ⟨rfl, by decide⟩

/-- C5 amended: when the inverter detail pv array has fewer than two
entries, fetch_solar_data raises IndexError (from the positional access at
index 0 or 1) rather than returning a report with missing panel fields or
ignoring the shortfall: here for an empty pv array and for a singleton pv
array with a well formed entry. -/
theorem C5_amended_short_pv_index_error (v c q : Json) (tk0 : Option Json)
    (wrest : List HttpResp) :
    (fetch_solar_data ⟨some "user", some "pass", true, tk0⟩
        ([mockLogin, mockStations, mockDetail, mockInverters,
          mockInverterInfo (Json.arr [])] ++ wrest)).val = .error .indexError ∧
    (fetch_solar_data ⟨some "user", some "pass", true, tk0⟩
        ([mockLogin, mockStations, mockDetail, mockInverters,
          mockInverterInfo (Json.arr
            [Json.obj [("voltage", v), ("current", c), ("power", q)]])] ++ wrest)).val =
      .error .indexError :=
  ⟨rfl, rfl⟩
